import Mathlib

/-!
# Thread primitives of `stl/src/cthread.cpp`

A shallow embedding of the thread-lifecycle functions of `cthread.cpp`
(`_Thrd_runner`, `_Thrd_start`, `_Thrd_join`, `_Thrd_detach`, `_Thrd_sleep`,
`_Thrd_equal`, `_Thrd_current`, `_Thrd_hardware_concurrency`, `_Thrd_create`).

Conventions of the embedding:

* `int` is an `Int` in `[-2^31, 2^31)`; `unsigned int`, `unsigned long` and
  `DWORD` (all 32 bits wide on the target) are a `Nat` below `2^32`;
  conversions are written with an explicit `% 2^32`.
* A Win32 `HANDLE` is a `Nat`, `0` being `nullptr`; a `BOOL` is an `Int`,
  `0` being `FALSE`.
* Every call into the operating system takes its outcome from an explicit
  parameter, and every function records the calls it makes in a trace.
* An `int*` output argument is an `Option Int`: `none` is the null pointer,
  `some v` is a pointer to a cell that currently holds `v`.
-/

namespace CThread

/-! ## Machine integers -/

/-- Conversion `int -> unsigned int` (as in `const unsigned int res = b.func(b.data)`). -/
def int_to_uint (v : Int) : Nat := (v % 2 ^ 32).toNat

/-- Conversion `unsigned int -> unsigned long`, the 32-bit `DWORD` which
`GetExitCodeThread` stores. -/
def uint_to_ulong (u : Nat) : Nat := u % 2 ^ 32

/-- Conversion `static_cast<int>(res)` of a 32-bit `unsigned long`. -/
def ulong_to_int (r : Nat) : Int :=
  if r % 2 ^ 32 < 2 ^ 31 then ((r % 2 ^ 32 : Nat) : Int) else ((r % 2 ^ 32 : Nat) : Int) - 2 ^ 32

/-- The values of a 32-bit `int`. -/
def IsInt32 (v : Int) : Prop := -(2 ^ 31) ≤ v ∧ v < 2 ^ 31

instance (v : Int) : Decidable (IsInt32 v) := by
  unfold IsInt32; infer_instance

/-! ## Data model -/

/-- Modelled from the spec: the result enumeration of `xthreads.h` is not part of
the sources at hand; every operation "either fully succeeds or fully fails", and
`cthread.cpp` uses exactly the two enumerators below. -/
inductive _Thrd_result where
  | _Thrd_success
  | _Thrd_error
  deriving DecidableEq, Repr

open _Thrd_result

/-- Modelled from the spec: `_Thrd_t` of `xthreads.h`, "an opaque native handle"
and "a native thread identifier"; `cthread.cpp` reads and writes the fields
`_Hnd` and `_Id`. -/
structure _Thrd_t where
  _Hnd : Nat
  _Id : Nat
  deriving DecidableEq, Repr

/-- The `WAIT_FAILED` result of `WaitForSingleObjectEx`, `(DWORD)0xFFFFFFFF`. -/
def WAIT_FAILED : Nat := 0xFFFFFFFF

/-- Calls into the operating system made by `_Thrd_join` and `_Thrd_detach`. -/
inductive OsCall where
  | WaitForSingleObjectEx (h : Nat)
  | GetExitCodeThread (h : Nat)
  | CloseHandle (h : Nat)
  deriving DecidableEq, Repr

/-- Outcomes of the operating-system calls on a handle: the `DWORD` returned by
`WaitForSingleObjectEx(h, INFINITE, FALSE)`, the `BOOL` returned by
`GetExitCodeThread` together with the `DWORD` it stores, and the `BOOL`
returned by `CloseHandle`. -/
structure Win32 where
  WaitForSingleObjectEx : Nat → Nat
  GetExitCodeThread : Nat → Int × Nat
  CloseHandle : Nat → Int

/-- What a call of `_Thrd_join` leaves behind: the returned result, the cell
behind `code` (`none` for a null `code`), and the operating-system calls made. -/
structure JoinOutcome where
  ret : _Thrd_result
  code : Option Int
  calls : List OsCall
  deriving DecidableEq, Repr

/-! ## `_Thrd_join` and `_Thrd_detach` -/

/-- Source `_Thrd_join(_Thrd_t thr, int* code)`, lines 55-69. -/
def _Thrd_join (os : Win32) (thr : _Thrd_t) (code : Option Int) : JoinOutcome :=
  if os.WaitForSingleObjectEx thr._Hnd = WAIT_FAILED then
    { ret := _Thrd_error, code := code, calls := [.WaitForSingleObjectEx thr._Hnd] }
  else
    match code with
    | some old =>
      let q := os.GetExitCodeThread thr._Hnd
      if q.1 = 0 then
        { ret := _Thrd_error, code := some old,
          calls := [.WaitForSingleObjectEx thr._Hnd, .GetExitCodeThread thr._Hnd] }
      else
        { ret := if os.CloseHandle thr._Hnd ≠ 0 then _Thrd_success else _Thrd_error,
          code := some (ulong_to_int q.2),
          calls := [.WaitForSingleObjectEx thr._Hnd, .GetExitCodeThread thr._Hnd,
                    .CloseHandle thr._Hnd] }
    | none =>
      { ret := if os.CloseHandle thr._Hnd ≠ 0 then _Thrd_success else _Thrd_error,
        code := none,
        calls := [.WaitForSingleObjectEx thr._Hnd, .CloseHandle thr._Hnd] }

/-- Source `_Thrd_detach(_Thrd_t thr)`, lines 71-73: the returned result and the
operating-system calls made. -/
def _Thrd_detach (os : Win32) (thr : _Thrd_t) : _Thrd_result × List OsCall :=
  (if os.CloseHandle thr._Hnd ≠ 0 then _Thrd_success else _Thrd_error,
   [.CloseHandle thr._Hnd])

/-! ## The start-up handshake: `_Thrd_runner`, `_Thrd_start`, `_Thrd_create` -/

/-- The two threads that take part in one `_Thrd_create` call. -/
inductive Thread where
  | creator
  | runner
  deriving DecidableEq, Repr

/-- Operations on the handshake objects and the calls around them. -/
inductive Event where
  | CndInit
  | MtxInit
  | MtxLock (t : Thread)
  | MtxUnlock (t : Thread)
  | StoreStarted (v : Int)
  | CndSignal
  | CndWaitRelease (t : Thread)
  | CndWaitReacquire (t : Thread)
  | BeginThread
  | CallFunc (data : Nat)
  | BroadcastAtThreadExit
  | CndDestroy
  | MtxDestroy
  deriving DecidableEq, Repr

/-- One entry of the trace: the operation, and who held the handshake mutex at
the moment the operation began. -/
structure Stamp where
  ev : Event
  holder : Option Thread
  deriving DecidableEq, Repr

/-- The objects the binder points to (`*b.mtx`, `*b.started`; `*b.cond` carries
no data of its own) and the trace of operations on them. -/
structure Handshake where
  mtx : Option Thread
  started : Int
  trace : List Stamp
  deriving DecidableEq, Repr

/-- Append an operation to the trace, stamped with the current mutex holder. -/
def emit (e : Event) (s : Handshake) : Handshake :=
  { s with trace := s.trace ++ [⟨e, s.mtx⟩] }

/-- Modelled from the spec: `_Mtx_lock` lives in `mutex.cpp`, which is not part of
the sources at hand ("acquire the handshake mutex"). The state is the one in
which the call has returned: the caller holds the mutex. -/
def _Mtx_lock (t : Thread) (s : Handshake) : Handshake :=
  { emit (.MtxLock t) s with mtx := some t }

/-- Modelled from the spec: `_Mtx_unlock` lives in `mutex.cpp`, which is not part
of the sources at hand ("release the mutex"). -/
def _Mtx_unlock (t : Thread) (s : Handshake) : Handshake :=
  { emit (.MtxUnlock t) s with mtx := none }

/-- Modelled from the spec: `_Cnd_signal` lives in `cond.cpp`, which is not part
of the sources at hand ("signal the condition variable"). -/
def _Cnd_signal (s : Handshake) : Handshake := emit .CndSignal s

/-- Modelled from the spec: `_Cnd_wait` lives in `cond.cpp`, which is not part of
the sources at hand ("wait on the condition variable (releasing the mutex while
waiting, reacquiring on wake)"). `other` is what the other thread does to the
handshake objects while the mutex is released; `id` is a spurious wakeup. -/
def _Cnd_wait (t : Thread) (other : Handshake → Handshake) (s : Handshake) : Handshake :=
  let s := { emit (.CndWaitRelease t) s with mtx := none }
  let s := other s
  { emit (.CndWaitReacquire t) s with mtx := some t }

/-- Modelled from the spec: `_Cnd_do_broadcast_at_thread_exit` lives in
`cond.cpp`, which is not part of the sources at hand ("a broadcast-style wake of
any thread-exit-scoped waiters"); it does not touch the handshake objects. -/
def _Cnd_do_broadcast_at_thread_exit (s : Handshake) : Handshake :=
  emit .BroadcastAtThreadExit s

/-- Source `struct _Thrd_binder`, lines 20-26. The pointers `cond`, `mtx` and
`started` denote the cells of the `Handshake` the functions are run on. -/
structure _Thrd_binder where
  func : Nat → Int
  data : Nat

/-- Source `_Thrd_runner`, lines 32-35: the part of the trampoline that runs
before the user function. -/
def _Thrd_runner_handshake (s : Handshake) : Handshake :=
  let s := _Mtx_lock .runner s
  let s := { emit (.StoreStarted 1) s with started := 1 }
  let s := _Cnd_signal s
  _Mtx_unlock .runner s

/-- Source `_Thrd_runner(void* d)`, lines 30-39: the returned `unsigned int` and
the state left behind. -/
def _Thrd_runner (b : _Thrd_binder) (s : Handshake) : Nat × Handshake :=
  let s := _Thrd_runner_handshake s
  let s := emit (.CallFunc b.data) s
  let res : Nat := int_to_uint (b.func b.data)
  let s := _Cnd_do_broadcast_at_thread_exit s
  (res, s)

/-- Source `_Thrd_start`, lines 50-53. `bt` is the outcome of `_beginthreadex`:
the returned handle and the value of `thr->_Id` after the call. -/
def _Thrd_start (bt : Nat × Nat) (_thr : _Thrd_t) : _Thrd_result × _Thrd_t :=
  let thr : _Thrd_t := { _Hnd := bt.1, _Id := bt.2 }
  (if thr._Hnd = 0 then _Thrd_error else _Thrd_success, thr)

/-- Source `while (!started) { _Cnd_wait(cond, mtx); }`, lines 127-129. The list
says, for each return of `_Cnd_wait`, whether the new thread went through its
handshake while the creator was waiting (`true`) or the wakeup was spurious
(`false`). The result is `none` when the list is used up with `started` still
zero: the creator is still blocked. -/
def handshake_wait : List Bool → Handshake → Option Handshake
  | [], s => if s.started = 0 then none else some s
  | w :: ws, s =>
    if s.started = 0 then
      handshake_wait ws (_Cnd_wait .creator (if w then _Thrd_runner_handshake else id) s)
    else some s

/-- What a returning call of `_Thrd_create` leaves behind. -/
structure CreateOutcome where
  ret : _Thrd_result
  thr : _Thrd_t
  hs : Handshake
  deriving DecidableEq, Repr

/-- Source `_Thrd_create`, lines 112-135. `bt` is the outcome of `_beginthreadex`,
`wakes` the returns of `_Cnd_wait` (see `handshake_wait`). The binder is what the
new thread receives; the part of `_Thrd_runner` that runs during the handshake
reads only its `mtx`, `started` and `cond`. The result is `none` when the creator
never leaves the wait loop. -/
def _Thrd_create (bt : Nat × Nat) (wakes : List Bool) (thr : _Thrd_t)
    (func : Nat → Int) (d : Nat) : Option CreateOutcome :=
  let s : Handshake := { mtx := none, started := 0, trace := [] }
  let s := emit .CndInit s
  let s := emit .MtxInit s
  let _b : _Thrd_binder := { func := func, data := d }
  let s := _Mtx_lock .creator s
  let s := emit .BeginThread s
  let (res, thr) := _Thrd_start bt thr
  let waited := if res = _Thrd_success then handshake_wait wakes s else some s
  waited.map fun s =>
    let s := _Mtx_unlock .creator s
    let s := emit .CndDestroy s
    let s := emit .MtxDestroy s
    { ret := res, thr := thr, hs := s }

/-- The state of `_Thrd_create` at line 126, when `_Thrd_start` has been called:
the objects are initialised and the creator holds the mutex (lines 115-126). -/
def create_locked : Handshake :=
  emit .BeginThread (_Mtx_lock .creator (emit .MtxInit (emit .CndInit
    { mtx := none, started := 0, trace := [] })))

/-- Lines 131-134 of `_Thrd_create`, from the state `s` in which the handshake is
over (or was never begun). -/
def create_finish (res : _Thrd_result) (thr : _Thrd_t) (s : Handshake) : CreateOutcome :=
  { ret := res, thr := thr,
    hs := emit .MtxDestroy (emit .CndDestroy (_Mtx_unlock .creator s)) }

/-- Operations that change who holds the handshake mutex. -/
def isLockOp : Event → Bool
  | .MtxLock _ => true
  | .MtxUnlock _ => true
  | .CndWaitRelease _ => true
  | .CndWaitReacquire _ => true
  | _ => false

/-- The condition waits of a trace. -/
def isWait : Event → Bool
  | .CndWaitRelease _ => true
  | _ => false

/-- The operations of a trace, without the stamps. -/
def events (s : Handshake) : List Event := s.trace.map Stamp.ev

/-- The invocations of the user entry function. -/
def isCallFunc : Event → Bool
  | .CallFunc _ => true
  | _ => false

/-- The entries which a run that started in `s0` and ended in `s` added to the trace. -/
def appended (s0 s : Handshake) : List Stamp := s.trace.drop s0.trace.length

/-- Mutex discipline of one trace entry: the mutex is free when it is acquired,
and a thread that releases it, waits with it, or stores `started` holds it. -/
def disciplined (st : Stamp) : Bool :=
  match st.ev with
  | .MtxLock _ => st.holder == none
  | .CndWaitReacquire _ => st.holder == none
  | .MtxUnlock t => st.holder == some t
  | .CndWaitRelease t => st.holder == some t
  | .StoreStarted _ => st.holder == some .runner
  | _ => true

/-! ## `_Thrd_sleep` -/

/-- The `_timespec64` of the C runtime: seconds and nanoseconds. -/
structure _timespec64 where
  tv_sec : Int
  tv_nsec : Int
  deriving DecidableEq, Repr

/-- The loop condition of `_Thrd_sleep`, line 81, with `now` first:
`now.tv_sec < xt->tv_sec || now.tv_sec == xt->tv_sec && now.tv_nsec < xt->tv_nsec`. -/
def before (now xt : _timespec64) : Bool :=
  decide (now.tv_sec < xt.tv_sec) || (decide (now.tv_sec = xt.tv_sec) && decide (now.tv_nsec < xt.tv_nsec))

/-- Lexicographic `a ≥ b` on `(tv_sec, tv_nsec)`. -/
def notEarlier (a b : _timespec64) : Prop :=
  b.tv_sec < a.tv_sec ∨ (b.tv_sec = a.tv_sec ∧ b.tv_nsec ≤ a.tv_nsec)

instance (a b : _timespec64) : Decidable (notEarlier a b) := by
  unfold notEarlier; infer_instance

/-- What a returning call of `_Thrd_sleep` leaves behind: the final value of
`now`, the clock readings taken before it (oldest first), and the arguments of
the `Sleep` calls. -/
structure SleepOutcome where
  now : _timespec64
  earlier : List _timespec64
  sleeps : List Nat
  deriving DecidableEq, Repr

/-- Source `do { Sleep(...); _Timespec64_get_sys(&now); } while (...)`, lines
78-81. `millis` stands for `_Xtime_diff_to_millis2` (of `xtime.cpp`), the list is
the readings `_Timespec64_get_sys` will return. The result is `none` when the
readings are used up before the loop ends. -/
def sleep_loop (millis : _timespec64 → _timespec64 → Nat) (xt : _timespec64) :
    List _timespec64 → SleepOutcome → Option SleepOutcome
  | [], _ => none
  | t :: ts, o =>
    let o : SleepOutcome :=
      { now := t, earlier := o.earlier ++ [o.now], sleeps := o.sleeps ++ [millis xt o.now] }
    if before o.now xt then sleep_loop millis xt ts o else some o

/-- Source `_Thrd_sleep(const _timespec64* xt)`, lines 75-82. -/
def _Thrd_sleep (millis : _timespec64 → _timespec64 → Nat) (xt : _timespec64) :
    List _timespec64 → Option SleepOutcome
  | [] => none
  | t :: ts => sleep_loop millis xt ts { now := t, earlier := [], sleeps := [] }

/-! ## Identity and hardware concurrency -/

/-- Source `_Thrd_equal`, lines 89-91: the `int` value of `thr0._Id == thr1._Id`. -/
def _Thrd_equal (thr0 thr1 : _Thrd_t) : Int :=
  if thr0._Id = thr1._Id then 1 else 0

/-- Source `_Thrd_current`, lines 94-99. `tid` is what `GetCurrentThreadId()`
returns on the calling thread. -/
def _Thrd_current (tid : Nat) : _Thrd_t :=
  { _Hnd := 0, _Id := tid }

/-- The field of `SYSTEM_INFO` which `_Thrd_hardware_concurrency` reads, a `DWORD`. -/
structure SYSTEM_INFO where
  dwNumberOfProcessors : Nat

/-- Source `_Thrd_hardware_concurrency`, lines 105-109. `info` is what
`GetNativeSystemInfo` stored. -/
def _Thrd_hardware_concurrency (info : SYSTEM_INFO) : Nat :=
  info.dwNumberOfProcessors % 2 ^ 32

/-- What `GetNativeSystemInfo` stores on a running system: the call cannot fail,
and the field counts the logical processors of the processor group of the
calling thread, which runs on one of them; the field is a `DWORD`. -/
def RunningSystem (info : SYSTEM_INFO) : Prop :=
  1 ≤ info.dwNumberOfProcessors ∧ info.dwNumberOfProcessors < 2 ^ 32

instance (info : SYSTEM_INFO) : Decidable (RunningSystem info) := by
  unfold RunningSystem; infer_instance

/-! ## Inputs used in the concrete checks -/

/-- The wait and the exit-code query succeed (the query stores `0xFFFFFFFF`), and so
does the handle release. -/
def os_all_ok : Win32 :=
  { WaitForSingleObjectEx := fun _ => 0
    GetExitCodeThread := fun _ => (1, 4294967295)
    CloseHandle := fun _ => 1 }

/-- The wait and the exit-code query succeed (the query stores `0`), the handle
release fails. -/
def os_release_fails : Win32 :=
  { WaitForSingleObjectEx := fun _ => 0
    GetExitCodeThread := fun _ => (1, 0)
    CloseHandle := fun _ => 0 }

/-- The wait itself fails. -/
def os_wait_fails : Win32 :=
  { WaitForSingleObjectEx := fun _ => WAIT_FAILED
    GetExitCodeThread := fun _ => (1, 0)
    CloseHandle := fun _ => 1 }

/-- A thread descriptor with handle `1` and identifier `1`. -/
def thr_one : _Thrd_t := { _Hnd := 1, _Id := 1 }

/-- A binder whose entry function returns `-1` on every argument. -/
def binder_minus_one : _Thrd_binder := { func := fun _ => -1, data := 0 }

/-- The handshake objects as `_Thrd_create` sets them up, before any operation. -/
def hs_fresh : Handshake := { mtx := none, started := 0, trace := [] }

/-! ## Conversions -/

theorem int_to_uint_lt (v : Int) : int_to_uint v < 2 ^ 32 := by
  unfold int_to_uint
  omega

theorem ulong_to_int_isInt32 (r : Nat) : IsInt32 (ulong_to_int r) := by
  unfold IsInt32 ulong_to_int
  split <;> omega

theorem conv_chain (v : Int) (hv : IsInt32 v) :
    ulong_to_int (uint_to_ulong (int_to_uint v)) = v := by
  unfold IsInt32 at hv
  unfold ulong_to_int uint_to_ulong int_to_uint
  split <;> omega

/-! ## `_Thrd_join` -/

theorem join_runner_ret (b : _Thrd_binder) (s0 : Handshake) :
    (_Thrd_runner b s0).1 = int_to_uint (b.func b.data) := rfl

/-- C1: when the operating system reports as exit code the `unsigned int` which
`_Thrd_runner` returned, a successful `_Thrd_join` with a non-null `code` stores
exactly the `int` the entry function returned; the chain of conversions
`int -> unsigned int -> unsigned long -> int` is the identity on every 32-bit
`int`, negative values included. -/
theorem join_stores_entry_result (b : _Thrd_binder) (s0 : Handshake) (os : Win32)
    (thr : _Thrd_t) (old : Int)
    (hv : IsInt32 (b.func b.data))
    (hexit : (os.GetExitCodeThread thr._Hnd).2 = uint_to_ulong (_Thrd_runner b s0).1)
    (hok : (_Thrd_join os thr (some old)).ret = _Thrd_success) :
    (_Thrd_join os thr (some old)).code = some (b.func b.data) ∧
    ∀ v : Int, IsInt32 v → ulong_to_int (uint_to_ulong (int_to_uint v)) = v := by
  refine ⟨?_, conv_chain⟩
  rw [join_runner_ret] at hexit
  unfold _Thrd_join at hok ⊢
  by_cases hw : os.WaitForSingleObjectEx thr._Hnd = WAIT_FAILED
  · simp [hw] at hok
  · by_cases hq : (os.GetExitCodeThread thr._Hnd).1 = 0
    · simp [hw, hq] at hok
    · simp [hw, hq, hexit, conv_chain _ hv]

/-- C1, at an entry function that returns `-1`: the operating system reports
`0xFFFFFFFF` and the join stores `-1`. -/
theorem join_stores_entry_result_witness :
    IsInt32 (binder_minus_one.func binder_minus_one.data) ∧
    (_Thrd_join os_all_ok thr_one (some 7)).code = some (-1) :=
  ⟨by decide,
   (join_stores_entry_result binder_minus_one hs_fresh os_all_ok thr_one 7
      (by decide) (by decide) (by decide)).1⟩

/-- C2, as stated, fails: the wait succeeds and no exit code is requested, yet
`_Thrd_join` returns `_Thrd_error`, because `CloseHandle` fails. -/
theorem join_failure_iff_counterexample :
    ¬ ((_Thrd_join os_release_fails thr_one none).ret = _Thrd_error ↔
        (os_release_fails.WaitForSingleObjectEx thr_one._Hnd = WAIT_FAILED ∨
         (os_release_fails.WaitForSingleObjectEx thr_one._Hnd ≠ WAIT_FAILED ∧
          (none : Option Int).isSome = true ∧
          (os_release_fails.GetExitCodeThread thr_one._Hnd).1 = 0))) := by
  decide

/-- C2, amended: `_Thrd_join` returns `_Thrd_error` if and only if the wait fails,
or the wait succeeds and the requested exit code cannot be retrieved, or both of
these go well and the final `CloseHandle` fails; it returns `_Thrd_success` in
every other case. When the wait succeeds and no exit code is requested, the
result is that of `CloseHandle`. -/
theorem join_failure_iff (os : Win32) (thr : _Thrd_t) (code : Option Int) :
    ((_Thrd_join os thr code).ret = _Thrd_error ↔
      (os.WaitForSingleObjectEx thr._Hnd = WAIT_FAILED ∨
       (os.WaitForSingleObjectEx thr._Hnd ≠ WAIT_FAILED ∧ code.isSome = true ∧
        (os.GetExitCodeThread thr._Hnd).1 = 0) ∨
       (os.WaitForSingleObjectEx thr._Hnd ≠ WAIT_FAILED ∧
        ¬ (code.isSome = true ∧ (os.GetExitCodeThread thr._Hnd).1 = 0) ∧
        os.CloseHandle thr._Hnd = 0))) ∧
    ((_Thrd_join os thr code).ret = _Thrd_success ↔
      (_Thrd_join os thr code).ret ≠ _Thrd_error) ∧
    ((os.WaitForSingleObjectEx thr._Hnd ≠ WAIT_FAILED ∧ code = none) →
      ((_Thrd_join os thr code).ret = _Thrd_success ↔ os.CloseHandle thr._Hnd ≠ 0)) := by
  unfold _Thrd_join
  by_cases hw : os.WaitForSingleObjectEx thr._Hnd = WAIT_FAILED
  · simp [hw]
  · cases code with
    | none =>
      by_cases hc : os.CloseHandle thr._Hnd = 0 <;> simp [hw, hc]
    | some old =>
      by_cases hq : (os.GetExitCodeThread thr._Hnd).1 = 0
      · simp [hw, hq]
      · by_cases hc : os.CloseHandle thr._Hnd = 0 <;> simp [hw, hq, hc]

/-- C3, as stated, fails: the wait and the exit-code query succeed, the exit code
`0` is stored over the previous `7`, and then `CloseHandle` fails, so
`_Thrd_join` returns `_Thrd_error` with `*code` changed. -/
theorem join_code_unchanged_counterexample :
    ¬ ((_Thrd_join os_release_fails thr_one (some 7)).ret = _Thrd_error →
        (_Thrd_join os_release_fails thr_one (some 7)).code = some 7) := by
  decide

/-- C3, amended: when the wait fails, or the requested exit code cannot be
retrieved, `_Thrd_join` returns `_Thrd_error` with `*code` unchanged and without
a `CloseHandle`. When the wait and the query of a requested exit code both
succeed, the converted exit code is stored in `*code` before the handle is
released, whatever `CloseHandle` then returns, and the result is `_Thrd_error`
exactly when `CloseHandle` fails. Hence a join that returns `_Thrd_error` with
`*code` changed is one whose wait and query succeeded and whose `CloseHandle`
failed. -/
theorem join_code_on_failure (os : Win32) (thr : _Thrd_t) (code : Option Int) :
    ((os.WaitForSingleObjectEx thr._Hnd = WAIT_FAILED ∨
       (code.isSome = true ∧ (os.GetExitCodeThread thr._Hnd).1 = 0)) →
      (_Thrd_join os thr code).ret = _Thrd_error ∧
      (_Thrd_join os thr code).code = code ∧
      OsCall.CloseHandle thr._Hnd ∉ (_Thrd_join os thr code).calls) ∧
    (os.WaitForSingleObjectEx thr._Hnd ≠ WAIT_FAILED → code.isSome = true →
      (os.GetExitCodeThread thr._Hnd).1 ≠ 0 →
      (_Thrd_join os thr code).code =
        some (ulong_to_int (os.GetExitCodeThread thr._Hnd).2) ∧
      (_Thrd_join os thr code).calls =
        [.WaitForSingleObjectEx thr._Hnd, .GetExitCodeThread thr._Hnd,
         .CloseHandle thr._Hnd] ∧
      ((_Thrd_join os thr code).ret = _Thrd_error ↔ os.CloseHandle thr._Hnd = 0)) ∧
    ((_Thrd_join os thr code).ret = _Thrd_error →
      (_Thrd_join os thr code).code ≠ code →
      os.WaitForSingleObjectEx thr._Hnd ≠ WAIT_FAILED ∧ code.isSome = true ∧
      (os.GetExitCodeThread thr._Hnd).1 ≠ 0 ∧ os.CloseHandle thr._Hnd = 0 ∧
      (_Thrd_join os thr code).code =
        some (ulong_to_int (os.GetExitCodeThread thr._Hnd).2)) := by
  unfold _Thrd_join
  by_cases hw : os.WaitForSingleObjectEx thr._Hnd = WAIT_FAILED
  · simp [hw]
  · cases code with
    | none => simp [hw]
    | some old =>
      by_cases hq : (os.GetExitCodeThread thr._Hnd).1 = 0
      · simp [hw, hq]
      · by_cases hc : os.CloseHandle thr._Hnd = 0 <;> simp [hw, hq, hc]

/-- C3, amended, at a join whose wait and query succeed and whose `CloseHandle`
fails: it returns `_Thrd_error` and `*code`, which held `7`, holds the exit
code `0`. -/
theorem join_code_on_failure_witness :
    (_Thrd_join os_release_fails thr_one (some 7)).ret = _Thrd_error ∧
    (_Thrd_join os_release_fails thr_one (some 7)).code = some 0 :=
  ⟨((join_code_on_failure os_release_fails thr_one (some 7)).2.1
      (by decide) (by decide) (by decide)).2.2.2 (by decide),
   ((join_code_on_failure os_release_fails thr_one (some 7)).2.1
      (by decide) (by decide) (by decide)).1⟩

/-! ## `_Thrd_detach` -/

/-- C7: `_Thrd_detach` returns `_Thrd_success` if and only if `CloseHandle`
succeeds and `_Thrd_error` otherwise; its only operating-system call is one
`CloseHandle` on the handle: it neither waits nor queries the exit code. -/
theorem detach_result (os : Win32) (thr : _Thrd_t) :
    ((_Thrd_detach os thr).1 = _Thrd_success ↔ os.CloseHandle thr._Hnd ≠ 0) ∧
    ((_Thrd_detach os thr).1 = _Thrd_error ↔ os.CloseHandle thr._Hnd = 0) ∧
    (_Thrd_detach os thr).2 = [OsCall.CloseHandle thr._Hnd] ∧
    (_Thrd_detach os thr).2.count (OsCall.CloseHandle thr._Hnd) = 1 ∧
    (∀ h, OsCall.WaitForSingleObjectEx h ∉ (_Thrd_detach os thr).2) ∧
    (∀ h, OsCall.GetExitCodeThread h ∉ (_Thrd_detach os thr).2) := by
  unfold _Thrd_detach
  by_cases hc : os.CloseHandle thr._Hnd = 0 <;> simp [hc]

/-! ## `_Thrd_equal` and `_Thrd_current` -/

/-- C8: `_Thrd_equal a b` is non-zero, and then exactly `1`, if and only if `a`
and `b` carry the same identifier, whatever their handles; it is reflexive,
symmetric and transitive; `_Thrd_current` compared with itself on one thread is
equal although its handle is null; different identifiers compare unequal. -/
theorem equal_iff_same_id (a b c : _Thrd_t) (tid : Nat) :
    (_Thrd_equal a b ≠ 0 ↔ a._Id = b._Id) ∧
    (_Thrd_equal a b = 1 ↔ a._Id = b._Id) ∧
    (_Thrd_equal a b = 0 ↔ a._Id ≠ b._Id) ∧
    (∀ h0 h1 : Nat,
      _Thrd_equal { _Hnd := h0, _Id := a._Id } { _Hnd := h1, _Id := b._Id } = _Thrd_equal a b) ∧
    _Thrd_equal a a = 1 ∧
    _Thrd_equal a b = _Thrd_equal b a ∧
    (_Thrd_equal a b = 1 → _Thrd_equal b c = 1 → _Thrd_equal a c = 1) ∧
    _Thrd_equal (_Thrd_current tid) (_Thrd_current tid) = 1 ∧
    (_Thrd_current tid)._Hnd = 0 ∧
    (_Thrd_current tid)._Id = tid := by
  unfold _Thrd_equal _Thrd_current
  refine ⟨?_, ?_, ?_, ?_, ?_, ?_, ?_, ?_, ?_, ?_⟩
  · by_cases h : a._Id = b._Id <;> simp [h]
  · by_cases h : a._Id = b._Id <;> simp [h]
  · by_cases h : a._Id = b._Id <;> simp [h]
  · intro h0 h1; rfl
  · simp
  · by_cases h : a._Id = b._Id
    · simp [h]
    · have h2 : ¬ b._Id = a._Id := fun e => h e.symm
      simp [h, h2]
  · intro h1 h2
    by_cases hab : a._Id = b._Id
    · by_cases hbc : b._Id = c._Id
      · simp [hab, hbc]
      · simp [hbc] at h2
    · simp [hab] at h1
  · simp
  · rfl
  · rfl

/-! ## `_Thrd_hardware_concurrency` -/

/-- The function has no lower bound of its own: it hands on whatever the field
holds, so the value `0` in the field would be returned as `0`. -/
theorem hardware_concurrency_no_floor :
    _Thrd_hardware_concurrency { dwNumberOfProcessors := 0 } = 0 := by
  decide

@[simp] theorem emit_mtx (e : Event) (s : Handshake) : (emit e s).mtx = s.mtx := rfl

@[simp] theorem emit_started (e : Event) (s : Handshake) : (emit e s).started = s.started := rfl

@[simp] theorem emit_trace (e : Event) (s : Handshake) :
    (emit e s).trace = s.trace ++ [⟨e, s.mtx⟩] := rfl

theorem runner_handshake_trace (s : Handshake) :
    (_Thrd_runner_handshake s).trace =
      s.trace ++ [⟨.MtxLock .runner, s.mtx⟩, ⟨.StoreStarted 1, some .runner⟩,
                  ⟨.CndSignal, some .runner⟩, ⟨.MtxUnlock .runner, some .runner⟩] := by
  simp [_Thrd_runner_handshake, _Mtx_lock, _Mtx_unlock, _Cnd_signal]

@[simp] theorem runner_handshake_started (s : Handshake) :
    (_Thrd_runner_handshake s).started = 1 := rfl

@[simp] theorem runner_handshake_mtx (s : Handshake) :
    (_Thrd_runner_handshake s).mtx = none := rfl

theorem runner_trace (b : _Thrd_binder) (s0 : Handshake) :
    (_Thrd_runner b s0).2.trace =
      s0.trace ++ [⟨.MtxLock .runner, s0.mtx⟩, ⟨.StoreStarted 1, some .runner⟩,
                   ⟨.CndSignal, some .runner⟩, ⟨.MtxUnlock .runner, some .runner⟩,
                   ⟨.CallFunc b.data, none⟩, ⟨.BroadcastAtThreadExit, none⟩] := by
  simp [_Thrd_runner, _Cnd_do_broadcast_at_thread_exit, runner_handshake_trace]

/-- C10: `_Thrd_runner` locks the handshake mutex, stores `1` in the started flag,
signals the condition variable, unlocks the mutex, and only then calls the user
entry function, once and with the data argument of the binder; after that it
does the at-thread-exit broadcast and returns the result of the user function
(as `unsigned int`). The flag is stored while the runner holds the mutex, and the
user function is called when the mutex has been released. -/
theorem runner_order (b : _Thrd_binder) (s0 : Handshake) :
    appended s0 (_Thrd_runner b s0).2 =
      [⟨.MtxLock .runner, s0.mtx⟩, ⟨.StoreStarted 1, some .runner⟩,
       ⟨.CndSignal, some .runner⟩, ⟨.MtxUnlock .runner, some .runner⟩,
       ⟨.CallFunc b.data, none⟩, ⟨.BroadcastAtThreadExit, none⟩] ∧
    ((appended s0 (_Thrd_runner b s0).2).map Stamp.ev).filter isCallFunc =
      [.CallFunc b.data] ∧
    (_Thrd_runner b s0).2.started = 1 ∧
    (_Thrd_runner b s0).2.mtx = none ∧
    (_Thrd_runner b s0).1 = int_to_uint (b.func b.data) ∧
    (IsInt32 (b.func b.data) →
      ulong_to_int (uint_to_ulong (_Thrd_runner b s0).1) = b.func b.data) := by
  have happ : appended s0 (_Thrd_runner b s0).2 =
      [⟨.MtxLock .runner, s0.mtx⟩, ⟨.StoreStarted 1, some .runner⟩,
       ⟨.CndSignal, some .runner⟩, ⟨.MtxUnlock .runner, some .runner⟩,
       ⟨.CallFunc b.data, none⟩, ⟨.BroadcastAtThreadExit, none⟩] := by
    unfold appended
    rw [runner_trace]
    simp
  refine ⟨happ, ?_, rfl, rfl, rfl, fun hv => conv_chain _ hv⟩
  rw [happ]
  simp [isCallFunc]

/-! ## `_Thrd_create` -/

theorem cnd_wait_started (w : Bool) (s : Handshake) :
    (_Cnd_wait .creator (if w then _Thrd_runner_handshake else id) s).started =
      if w then 1 else s.started := by
  cases w <;> rfl

theorem cnd_wait_mtx (t : Thread) (other : Handshake → Handshake) (s : Handshake) :
    (_Cnd_wait t other s).mtx = some t := rfl

theorem cnd_wait_trace (w : Bool) (s : Handshake) :
    (_Cnd_wait .creator (if w then _Thrd_runner_handshake else id) s).trace =
      s.trace ++ (⟨.CndWaitRelease .creator, s.mtx⟩ ::
        ((if w then
            [⟨.MtxLock .runner, none⟩, ⟨.StoreStarted 1, some .runner⟩,
             ⟨.CndSignal, some .runner⟩, ⟨.MtxUnlock .runner, some .runner⟩]
          else []) ++ [⟨.CndWaitReacquire .creator, none⟩])) := by
  cases w
  · simp [_Cnd_wait]
  · simp [_Cnd_wait, runner_handshake_trace]

theorem handshake_wait_started :
    ∀ (wakes : List Bool) (s s1 : Handshake),
      handshake_wait wakes s = some s1 → s1.started ≠ 0
  | [], s, s1, h => by
    unfold handshake_wait at h
    by_cases h0 : s.started = 0
    · simp [h0] at h
    · simp [h0] at h
      rw [← h]; exact h0
  | w :: ws, s, s1, h => by
    unfold handshake_wait at h
    by_cases h0 : s.started = 0
    · simp only [h0, if_true] at h
      exact handshake_wait_started ws _ s1 h
    · simp [h0] at h
      rw [← h]; exact h0

theorem handshake_wait_mtx :
    ∀ (wakes : List Bool) (s s1 : Handshake),
      handshake_wait wakes s = some s1 → s.mtx = some .creator → s1.mtx = some .creator
  | [], s, s1, h, hm => by
    unfold handshake_wait at h
    by_cases h0 : s.started = 0
    · simp [h0] at h
    · simp [h0] at h
      rw [← h]; exact hm
  | w :: ws, s, s1, h, hm => by
    unfold handshake_wait at h
    by_cases h0 : s.started = 0
    · simp only [h0, if_true] at h
      exact handshake_wait_mtx ws _ s1 h (cnd_wait_mtx _ _ _)
    · simp [h0] at h
      rw [← h]; exact hm

theorem handshake_wait_isSome :
    ∀ (wakes : List Bool) (s : Handshake),
      (handshake_wait wakes s).isSome = true ↔ (s.started ≠ 0 ∨ true ∈ wakes)
  | [], s => by
    unfold handshake_wait
    by_cases h0 : s.started = 0 <;> simp [h0]
  | w :: ws, s => by
    unfold handshake_wait
    by_cases h0 : s.started = 0
    · simp only [h0, if_true]
      rw [handshake_wait_isSome ws, cnd_wait_started]
      cases w <;> simp [h0]
    · simp [h0]

theorem handshake_wait_spurious :
    ∀ (n : Nat) (rest : List Bool) (s : Handshake), s.started = 0 →
      ∃ s1, handshake_wait (List.replicate n false ++ true :: rest) s = some s1 ∧
        s1.started = 1 ∧
        ((events s1).filter isWait).length = ((events s).filter isWait).length + (n + 1)
  | 0, rest, s, h0 => by
    refine ⟨_Cnd_wait .creator _Thrd_runner_handshake s, ?_, rfl, ?_⟩
    · cases rest <;> simp [handshake_wait, h0, _Cnd_wait]
    · have ht := cnd_wait_trace true s
      simp only [if_true] at ht
      simp [events, ht, isWait]
  | n + 1, rest, s, h0 => by
    have hs : (_Cnd_wait .creator id s).started = 0 := h0
    obtain ⟨s1, h1, h2, h3⟩ := handshake_wait_spurious n rest (_Cnd_wait .creator id s) hs
    refine ⟨s1, ?_, h2, ?_⟩
    · simp [List.replicate_succ, handshake_wait, h0, h1]
    · rw [h3]
      have ht := cnd_wait_trace false s
      simp only [Bool.false_eq_true, if_false] at ht
      simp [events, ht, isWait]
      omega

theorem create_eq (bt : Nat × Nat) (wakes : List Bool) (thr : _Thrd_t)
    (func : Nat → Int) (d : Nat) :
    _Thrd_create bt wakes thr func d =
      (if bt.1 = 0 then some create_locked else handshake_wait wakes create_locked).map
        (create_finish (_Thrd_start bt thr).1 (_Thrd_start bt thr).2) := by
  unfold _Thrd_create _Thrd_start
  by_cases hb : bt.1 = 0
  · simp [hb]; rfl
  · simp [hb]; rfl

theorem start_result (bt : Nat × Nat) (thr : _Thrd_t) :
    ((_Thrd_start bt thr).1 = _Thrd_success ↔ bt.1 ≠ 0) ∧
    ((_Thrd_start bt thr).1 = _Thrd_error ↔ bt.1 = 0) ∧
    (_Thrd_start bt thr).2 = { _Hnd := bt.1, _Id := bt.2 } := by
  unfold _Thrd_start
  by_cases hb : bt.1 = 0 <;> simp [hb]

theorem create_locked_started : create_locked.started = 0 := rfl

theorem create_locked_mtx : create_locked.mtx = some .creator := rfl

theorem create_locked_trace :
    create_locked.trace =
      [⟨.CndInit, none⟩, ⟨.MtxInit, none⟩, ⟨.MtxLock .creator, none⟩,
       ⟨.BeginThread, some .creator⟩] := rfl

theorem create_finish_trace (res : _Thrd_result) (thr : _Thrd_t) (s : Handshake) :
    (create_finish res thr s).hs.trace =
      s.trace ++ [⟨.MtxUnlock .creator, s.mtx⟩, ⟨.CndDestroy, none⟩, ⟨.MtxDestroy, none⟩] := by
  simp [create_finish, _Mtx_unlock]

theorem create_some (bt : Nat × Nat) (wakes : List Bool) (thr : _Thrd_t)
    (func : Nat → Int) (d : Nat) (o : CreateOutcome)
    (h : _Thrd_create bt wakes thr func d = some o) :
    ∃ s, o = create_finish (_Thrd_start bt thr).1 (_Thrd_start bt thr).2 s ∧
      s.mtx = some .creator ∧ (bt.1 ≠ 0 → s.started ≠ 0) ∧
      (bt.1 = 0 → s = create_locked) := by
  rw [create_eq] at h
  by_cases hb : bt.1 = 0
  · simp only [hb, if_true, Option.map_some', Option.some.injEq] at h
    exact ⟨create_locked, h.symm, rfl, fun hn => absurd hb hn, fun _ => rfl⟩
  · simp only [hb, if_false] at h
    cases hw : handshake_wait wakes create_locked with
    | none => simp [hw] at h
    | some s =>
      simp only [hw, Option.map_some', Option.some.injEq] at h
      exact ⟨s, h.symm, handshake_wait_mtx wakes _ s hw create_locked_mtx,
        fun _ => handshake_wait_started wakes _ s hw, fun h0 => absurd h0 hb⟩

theorem create_isSome (bt : Nat × Nat) (wakes : List Bool) (thr : _Thrd_t)
    (func : Nat → Int) (d : Nat) :
    (_Thrd_create bt wakes thr func d).isSome = true ↔ (bt.1 = 0 ∨ true ∈ wakes) := by
  rw [create_eq]
  by_cases hb : bt.1 = 0
  · simp [hb]
  · simp [hb, handshake_wait_isSome, create_locked_started]

/-- C4: whenever `_Thrd_create` returns, with `_Thrd_success` or `_Thrd_error`, the
creator does not hold the handshake mutex: the last operation on the lock is the
creator's `_Mtx_unlock`, made while the creator held the mutex (every condition
wait before it has re-acquired the mutex); and when it returns `_Thrd_success`
the started flag is non-zero. It returns exactly when thread start failed or the
new thread went through its handshake during one of the waits; after any number
`n` of spurious wakeups followed by the handshake it returns `_Thrd_success` with
the flag set, having waited `n + 1` times. -/
theorem create_returns_unlocked_and_started (bt : Nat × Nat) (wakes : List Bool)
    (thr : _Thrd_t) (func : Nat → Int) (d : Nat) :
    (∀ o, _Thrd_create bt wakes thr func d = some o →
      o.hs.mtx = none ∧
      (∃ pre, o.hs.trace = pre ++ [⟨.MtxUnlock .creator, some .creator⟩,
        ⟨.CndDestroy, none⟩, ⟨.MtxDestroy, none⟩]) ∧
      ((events o.hs).filter isLockOp).getLast? = some (.MtxUnlock .creator) ∧
      (o.ret = _Thrd_success → o.hs.started ≠ 0)) ∧
    ((_Thrd_create bt wakes thr func d).isSome = true ↔ (bt.1 = 0 ∨ true ∈ wakes)) ∧
    (∀ (n : Nat) (rest : List Bool), bt.1 ≠ 0 →
      ∃ o, _Thrd_create bt (List.replicate n false ++ true :: rest) thr func d = some o ∧
        o.ret = _Thrd_success ∧ o.hs.started = 1 ∧ o.hs.mtx = none ∧
        ((events o.hs).filter isWait).length = n + 1) := by
  refine ⟨?_, create_isSome bt wakes thr func d, ?_⟩
  · intro o h
    obtain ⟨s, ho, hm, hst, _⟩ := create_some bt wakes thr func d o h
    have ht := create_finish_trace (_Thrd_start bt thr).1 (_Thrd_start bt thr).2 s
    rw [← ho, hm] at ht
    refine ⟨by rw [ho]; rfl, ⟨s.trace, ht⟩, ?_, ?_⟩
    · simp [events, ht, isLockOp, List.getLast?_append]
    · intro hr
      have hb : bt.1 ≠ 0 := by
        apply (start_result bt thr).1.1
        rw [ho] at hr
        exact hr
      have : o.hs.started = s.started := by rw [ho]; rfl
      rw [this]
      exact hst hb
  · intro n rest hb
    obtain ⟨s1, h1, h2, h3⟩ := handshake_wait_spurious n rest create_locked create_locked_started
    refine ⟨create_finish (_Thrd_start bt thr).1 (_Thrd_start bt thr).2 s1, ?_, ?_, h2, rfl, ?_⟩
    · rw [create_eq]
      simp [hb, h1]
    · exact (start_result bt thr).1.2 hb
    · have ht := create_finish_trace (_Thrd_start bt thr).1 (_Thrd_start bt thr).2 s1
      simp only [events] at h3 ⊢
      rw [ht]
      simp [isWait, h3, create_locked_trace]

/-- C5: when `_beginthreadex` yields a null handle, `_Thrd_create` returns the
`_Thrd_error` of `_Thrd_start`, never waits on the condition variable, and still
unlocks the mutex and destroys the condition variable and the mutex before it
returns. Whenever `_Thrd_create` returns, its result is that of `_Thrd_start`,
which is `_Thrd_success` exactly when the handle is non-null; with a non-null
handle and a completed handshake it does return `_Thrd_success`. -/
theorem create_start_denied (bt : Nat × Nat) (wakes : List Bool)
    (thr : _Thrd_t) (func : Nat → Int) (d : Nat) :
    (bt.1 = 0 →
      ∃ o, _Thrd_create bt wakes thr func d = some o ∧
        o.ret = _Thrd_error ∧ o.ret = (_Thrd_start bt thr).1 ∧
        (events o.hs).filter isWait = [] ∧
        events o.hs = [.CndInit, .MtxInit, .MtxLock .creator, .BeginThread,
          .MtxUnlock .creator, .CndDestroy, .MtxDestroy] ∧
        o.hs.mtx = none) ∧
    (∀ o, _Thrd_create bt wakes thr func d = some o →
      o.ret = (_Thrd_start bt thr).1 ∧ o.thr = (_Thrd_start bt thr).2 ∧
      (o.ret = _Thrd_success ↔ bt.1 ≠ 0) ∧
      (o.ret = _Thrd_error ↔ bt.1 = 0) ∧
      ∃ pre, events o.hs = pre ++ [.MtxUnlock .creator, .CndDestroy, .MtxDestroy]) ∧
    (bt.1 ≠ 0 → true ∈ wakes →
      ∃ o, _Thrd_create bt wakes thr func d = some o ∧ o.ret = _Thrd_success) := by
  refine ⟨?_, ?_, ?_⟩
  · intro hb
    refine ⟨create_finish (_Thrd_start bt thr).1 (_Thrd_start bt thr).2 create_locked,
      ?_, ?_, rfl, ?_, ?_, rfl⟩
    · rw [create_eq]; simp [hb]
    · exact (start_result bt thr).2.1.2 hb
    · simp [events, create_finish_trace, create_locked_trace, isWait]
    · simp [events, create_finish_trace, create_locked_trace]
  · intro o h
    obtain ⟨s, ho, _, _, _⟩ := create_some bt wakes thr func d o h
    have hr : o.ret = (_Thrd_start bt thr).1 := by rw [ho]; rfl
    refine ⟨hr, by rw [ho]; rfl, ?_, ?_, ?_⟩
    · rw [hr]; exact (start_result bt thr).1
    · rw [hr]; exact (start_result bt thr).2.1
    · refine ⟨s.trace.map Stamp.ev, ?_⟩
      have ht := create_finish_trace (_Thrd_start bt thr).1 (_Thrd_start bt thr).2 s
      rw [← ho] at ht
      simp [events, ht]
  · intro hb hw
    have hs : (_Thrd_create bt wakes thr func d).isSome = true :=
      (create_isSome bt wakes thr func d).2 (Or.inr hw)
    obtain ⟨o, ho⟩ := Option.isSome_iff_exists.1 hs
    obtain ⟨s, hos, _, _, _⟩ := create_some bt wakes thr func d o ho
    refine ⟨o, ho, ?_⟩
    rw [hos]
    exact (start_result bt thr).1.2 hb

/-! ## `_Thrd_sleep` -/

theorem before_iff (a b : _timespec64) :
    before a b = true ↔
      (a.tv_sec < b.tv_sec ∨ (a.tv_sec = b.tv_sec ∧ a.tv_nsec < b.tv_nsec)) := by
  simp [before]

theorem not_before_iff (a b : _timespec64) : before a b = false ↔ notEarlier a b := by
  rw [← Bool.not_eq_true, before_iff]
  unfold notEarlier
  constructor
  · intro h
    by_cases h1 : b.tv_sec < a.tv_sec
    · exact Or.inl h1
    · right
      constructor
      · by_contra hne
        exact h (Or.inl (by omega))
      · by_contra hlt
        apply h
        by_cases h2 : a.tv_sec < b.tv_sec
        · exact Or.inl h2
        · exact Or.inr ⟨by omega, by omega⟩
  · intro h hb
    rcases h with h | ⟨h1, h2⟩ <;> rcases hb with hb | ⟨hb1, hb2⟩ <;> omega

theorem sleep_loop_some (millis : _timespec64 → _timespec64 → Nat) (xt : _timespec64) :
    ∀ (clock : List _timespec64) (o o1 : SleepOutcome),
      sleep_loop millis xt clock o = some o1 →
        before o1.now xt = false ∧
        ∃ mid rest, clock = mid ++ o1.now :: rest ∧
          o1.earlier = o.earlier ++ o.now :: mid ∧
          (∀ t ∈ mid, before t xt = true) ∧
          o1.sleeps = o.sleeps ++ (o.now :: mid).map (millis xt)
  | [], o, o1, h => by simp [sleep_loop] at h
  | t :: ts, o, o1, h => by
    unfold sleep_loop at h
    by_cases hb : before t xt = true
    · simp only [hb, if_true] at h
      obtain ⟨h1, mid, rest, h2, h3, h4, h5⟩ := sleep_loop_some millis xt ts _ o1 h
      refine ⟨h1, t :: mid, rest, ?_, ?_, ?_, ?_⟩
      · simp [h2]
      · simp [h3]
      · intro u hu
        rcases List.mem_cons.1 hu with hu | hu
        · rw [hu]; exact hb
        · exact h4 u hu
      · simp [h5]
    · simp only [hb] at h
      simp only [Bool.false_eq_true, if_false, Option.some.injEq] at h
      subst h
      refine ⟨by simpa using hb, [], ts, ?_, ?_, ?_, ?_⟩ <;> simp

theorem sleep_loop_isSome (millis : _timespec64 → _timespec64 → Nat) (xt : _timespec64) :
    ∀ (clock : List _timespec64) (o : SleepOutcome),
      (sleep_loop millis xt clock o).isSome = true ↔ ∃ t ∈ clock, before t xt = false
  | [], o => by simp [sleep_loop]
  | t :: ts, o => by
    unfold sleep_loop
    by_cases hb : before t xt = true
    · simp only [hb, if_true]
      rw [sleep_loop_isSome millis xt ts]
      simp [hb]
    · simp only [hb]
      simp only [Bool.false_eq_true, if_false, Option.isSome_some, true_iff]
      exact ⟨t, List.mem_cons_self _ _, by simpa using hb⟩

/-- C6: whenever `_Thrd_sleep` returns, the last clock reading `now` it took is
not earlier than `xt` in lexicographic `(tv_sec, tv_nsec)` order; the readings
it took are the first readings of the clock, every re-checked reading before the
last one was strictly before `xt`, and each reading but the last was followed by
one `Sleep`. It returns exactly when some reading after the first is not earlier
than `xt`. -/
theorem sleep_returns_not_before (millis : _timespec64 → _timespec64 → Nat)
    (xt : _timespec64) (clock : List _timespec64) :
    (∀ o, _Thrd_sleep millis xt clock = some o →
      notEarlier o.now xt ∧
      before o.now xt = false ∧
      (∃ rest, clock = o.earlier ++ o.now :: rest) ∧
      o.earlier ≠ [] ∧
      (∀ t ∈ o.earlier.tail, before t xt = true) ∧
      o.sleeps = o.earlier.map (millis xt)) ∧
    ((_Thrd_sleep millis xt clock).isSome = true ↔ ∃ t ∈ clock.tail, notEarlier t xt) := by
  cases clock with
  | nil => simp [_Thrd_sleep]
  | cons t0 ts =>
    unfold _Thrd_sleep
    constructor
    · intro o h
      obtain ⟨h1, mid, rest, h2, h3, h4, h5⟩ := sleep_loop_some millis xt ts _ o h
      simp only [List.nil_append] at h3 h5
      refine ⟨(not_before_iff _ _).1 h1, h1, ⟨rest, ?_⟩, ?_, ?_, ?_⟩
      · rw [h3, h2]; simp
      · rw [h3]; simp
      · rw [h3]; exact h4
      · rw [h5, h3]
    · rw [sleep_loop_isSome]
      simp only [List.tail_cons]
      constructor
      · rintro ⟨t, ht, hb⟩
        exact ⟨t, ht, (not_before_iff _ _).1 hb⟩
      · rintro ⟨t, ht, hb⟩
        exact ⟨t, ht, (not_before_iff _ _).2 hb⟩

/-! ## Mutex discipline of the model

The modelled `_Mtx_lock` and `_Cnd_wait` describe the state in which the call has
returned. The lemmas below show that, in every run of `_Thrd_create`, the mutex
was free each time it was acquired and was held by the thread that released it. -/

theorem handshake_wait_disciplined :
    ∀ (wakes : List Bool) (s s1 : Handshake),
      handshake_wait wakes s = some s1 → s.mtx = some .creator →
        s.trace.all disciplined = true → s1.trace.all disciplined = true
  | [], s, s1, h, _, hd => by
    unfold handshake_wait at h
    by_cases h0 : s.started = 0
    · simp [h0] at h
    · simp [h0] at h
      rw [← h]; exact hd
  | w :: ws, s, s1, h, hm, hd => by
    unfold handshake_wait at h
    by_cases h0 : s.started = 0
    · simp only [h0, if_true] at h
      refine handshake_wait_disciplined ws _ s1 h (cnd_wait_mtx _ _ _) ?_
      rw [cnd_wait_trace, hm, List.all_append, hd]
      cases w <;> simp [disciplined]
    · simp [h0] at h
      rw [← h]; exact hd

theorem create_disciplined (bt : Nat × Nat) (wakes : List Bool) (thr : _Thrd_t)
    (func : Nat → Int) (d : Nat) (o : CreateOutcome)
    (h : _Thrd_create bt wakes thr func d = some o) :
    o.hs.trace.all disciplined = true := by
  have hfin : ∀ s : Handshake, s.mtx = some .creator → s.trace.all disciplined = true →
      (create_finish (_Thrd_start bt thr).1 (_Thrd_start bt thr).2 s).hs.trace.all
        disciplined = true := by
    intro s hm hd
    rw [create_finish_trace, hm, List.all_append, hd]
    simp [disciplined]
  rw [create_eq] at h
  by_cases hb : bt.1 = 0
  · simp only [hb, if_true, Option.map_some', Option.some.injEq] at h
    rw [← h]
    exact hfin create_locked rfl (by decide)
  · simp only [hb, if_false] at h
    cases hw : handshake_wait wakes create_locked with
    | none => simp [hw] at h
    | some s =>
      simp only [hw, Option.map_some', Option.some.injEq] at h
      rw [← h]
      exact hfin s (handshake_wait_mtx wakes _ s hw create_locked_mtx)
        (handshake_wait_disciplined wakes _ s hw create_locked_mtx (by decide))

theorem create_two_spurious_wakeups :
    (_Thrd_create (5, 7) [false, false, true] thr_one (fun _ => 3) 9).map
        (fun o => (o.ret, o.thr, o.hs.started, o.hs.mtx, events o.hs)) =
      some (_Thrd_success, { _Hnd := 5, _Id := 7 }, 1, none,
        [.CndInit, .MtxInit, .MtxLock .creator, .BeginThread,
         .CndWaitRelease .creator, .CndWaitReacquire .creator,
         .CndWaitRelease .creator, .CndWaitReacquire .creator,
         .CndWaitRelease .creator, .MtxLock .runner, .StoreStarted 1, .CndSignal,
         .MtxUnlock .runner, .CndWaitReacquire .creator,
         .MtxUnlock .creator, .CndDestroy, .MtxDestroy]) := by
  decide

theorem create_never_started :
    _Thrd_create (5, 7) [false, false] thr_one (fun _ => 3) 9 = none := by
  decide

theorem sleep_clock_steps_back :
    _Thrd_sleep (fun _ _ => 1) ⟨5, 0⟩ [⟨6, 0⟩, ⟨4, 9⟩, ⟨5, 0⟩, ⟨7, 0⟩] =
      some { now := ⟨5, 0⟩, earlier := [⟨6, 0⟩, ⟨4, 9⟩], sleeps := [1, 1] } := by
  decide

/-! ## The theorems at concrete runs -/

/-- C4, at a run with two spurious wakeups before the handshake: `_Thrd_create`
returns `_Thrd_success` with the mutex free, the flag set, the creator's unlock
as last operation on the lock, after three waits. -/
theorem create_returns_unlocked_and_started_witness :
    ∃ o, _Thrd_create (5, 7) [false, false, true] thr_one (fun _ => 3) 9 = some o ∧
      o.ret = _Thrd_success ∧ o.hs.mtx = none ∧ o.hs.started ≠ 0 ∧
      ((events o.hs).filter isLockOp).getLast? = some (.MtxUnlock .creator) ∧
      ((events o.hs).filter isWait).length = 3 := by
  have h := create_returns_unlocked_and_started (5, 7) [false, false, true] thr_one
    (fun _ => 3) 9
  obtain ⟨o, ho, hr, _, hm, hn⟩ := h.2.2 2 [] (by decide)
  exact ⟨o, ho, hr, hm, (h.1 o ho).2.2.2 hr, (h.1 o ho).2.2.1, hn⟩

/-- C5, at a run in which `_beginthreadex` yields a null handle. -/
theorem create_start_denied_witness :
    ∃ o, _Thrd_create (0, 7) [true] thr_one (fun _ => 3) 9 = some o ∧
      o.ret = _Thrd_error ∧ (events o.hs).filter isWait = [] ∧
      events o.hs = [.CndInit, .MtxInit, .MtxLock .creator, .BeginThread,
        .MtxUnlock .creator, .CndDestroy, .MtxDestroy] := by
  obtain ⟨o, ho, hr, _, hw, he, _⟩ :=
    (create_start_denied (0, 7) [true] thr_one (fun _ => 3) 9).1 rfl
  exact ⟨o, ho, hr, hw, he⟩

/-- C6, at a clock that reaches the target `(5, 0)` with its third reading. -/
theorem sleep_returns_not_before_witness :
    ∃ o, _Thrd_sleep (fun _ _ => 1) ⟨5, 0⟩ [⟨1, 0⟩, ⟨4, 9⟩, ⟨5, 0⟩, ⟨7, 0⟩] = some o ∧
      notEarlier o.now ⟨5, 0⟩ ∧ o.sleeps.length = o.earlier.length := by
  have h := sleep_returns_not_before (fun _ _ => 1) ⟨5, 0⟩ [⟨1, 0⟩, ⟨4, 9⟩, ⟨5, 0⟩, ⟨7, 0⟩]
  obtain ⟨o, ho⟩ := Option.isSome_iff_exists.1 (h.2.2 ⟨⟨5, 0⟩, by decide, by decide⟩)
  refine ⟨o, ho, (h.1 o ho).1, ?_⟩
  rw [(h.1 o ho).2.2.2.2.2]
  simp

end CThread
